import Mathlib

/-!
Verification of the remote video bridge streaming-session protocol
(`IServer_video_context` / `IVideo_source`) of
`src/Plugins/nvindex_plugin/include/mi/neuraylib/ibridge_video_server.h`.

The repository ships only the abstract interface declarations with their
documented contracts; the session implementation itself is not part of the
sample.  The definitions below are therefore a shallow embedding of the
session state machine modelled from the specification (and from the
behaviour documented in the interface header): lifecycle states, the
frame-ready / pull coalescing discipline, bitrate clamping, configuration
and the encoder reset semantics.
-/

namespace Bridge

/-- Modelled from the spec: the session lifecycle `State` of the data model,
`Open → Closing → Closed`, terminal. -/
inductive State where
  | Open
  | Closing
  | Closed
deriving DecidableEq, Repr

/-- Modelled from the spec: the outcome of one completed pull-encode-send
cycle.  `sent` carries the encoded payload; `nothingToSend` is the case in
which `video_get_next_frame` returned neither frame nor data; `encodeError`
carries the encoder error code (`-1` invalid canvas, `-4` encoding failure);
`transportError` is a send failure (`-3` network error). -/
inductive Outcome where
  | sent (payload : Nat)
  | nothingToSend
  | encodeError (code : Int)
  | transportError
deriving DecidableEq, Repr

/-- Modelled from the spec: the observable actions the session emits toward
its collaborators: a pull issued to the FrameSource (`BeginPull`, the
`video_get_next_frame` callback), a payload handed to the TransportSink
(`Send`), the `video_error` callback (`VideoError`), and the closure
notification with its reason (`NotifyClosed`, reason `0` = by server,
`1` = by client, `-1` = network error). -/
inductive Act where
  | BeginPull
  | Send (payload : Nat)
  | VideoError (code : Int)
  | NotifyClosed (reason : Int)
deriving DecidableEq, Repr

/-- Modelled from the spec: the `Session` record of the data model.
`bitRate` is the rate controller's raw current bitrate estimate, before
clamping to `[minBitrate, maxBitrate]`; `source` is the bound FrameSource
(a handle, `none` when detached); `pullInFlight` records the at-most-one
outstanding pull; `pending` is the coalescing flag set by redundant
`frame_ready` signals; `encoderState` is the encoder's inter-frame
prediction state. -/
structure Session where
  state : State
  format : String
  maxFrameRate : Nat
  minBitrate : Nat
  maxBitrate : Nat
  bitRate : Nat
  source : Option Nat
  pullInFlight : Bool
  pending : Bool
  encoderState : Option Nat
deriving DecidableEq, Repr

/-- Modelled from the spec: `frame_ready` / `notifyFrameReady`.  If the
session is not Open the signal is silently ignored; if a pull is already in
flight the signal only sets the `pending` flag (coalescing); otherwise, with
a FrameSource bound, a pull cycle begins. -/
def frame_ready (s : Session) : Session × List Act :=
  if s.state = State.Open then
    if s.pullInFlight then
      ({ s with pending := true }, [])
    else if s.source.isSome then
      ({ s with pullInFlight := true }, [Act.BeginPull])
    else
      (s, [])
  else
    (s, [])

/-- Modelled from the spec: the per-outcome actions of a completed cycle. -/
def outcomeActs : Outcome → List Act
  | Outcome.sent p => [Act.Send p]
  | Outcome.nothingToSend => []
  | Outcome.encodeError c => [Act.VideoError c]
  | Outcome.transportError => [Act.VideoError (-3)]

/-- Modelled from the spec: completion of the in-flight pull cycle.  If the
session is no longer Open the result is discarded.  Otherwise the cycle's
actions are emitted and, when the `pending` flag was set (and a source is
still bound), exactly one follow-up pull is issued immediately. -/
def pull_complete (s : Session) (o : Outcome) : Session × List Act :=
  if s.pullInFlight then
    if s.state = State.Open then
      if s.pending && s.source.isSome then
        ({ s with pending := false }, outcomeActs o ++ [Act.BeginPull])
      else
        ({ s with pullInFlight := false, pending := false }, outcomeActs o)
    else
      ({ s with pullInFlight := false, pending := false }, [])
  else
    (s, [])

/-- Modelled from the spec: `close()`.  On an Open session it transitions to
Closing, clears the coalescing flag, releases encoder state and emits exactly
one closure notification with reason ClosedByServer (`0`); on a Closing or
Closed session it is a no-op. -/
def close (s : Session) : Session × List Act :=
  if s.state = State.Open then
    ({ s with state := State.Closing, pending := false, encoderState := none },
      [Act.NotifyClosed 0])
  else
    (s, [])

/-- Modelled from the spec: the internal completion of the closing phase
(resources released, any in-flight pull finished or abandoned), which moves
Closing to the terminal Closed state. -/
def finalize_close (s : Session) : Session × List Act :=
  if s.state = State.Closing then
    ({ s with state := State.Closed }, [])
  else
    (s, [])

/-- Modelled from the spec: receipt of a remote "closed by client" (`1`) or
"network error" (`-1`) signal from the TransportSink.  An Open session enters
Closed directly, skipping Closing, and the closure is notified with the given
reason; a Closing session just finishes closing; a Closed session ignores
the signal. -/
def remote_closed (s : Session) (reason : Int) : Session × List Act :=
  match s.state with
  | State.Open =>
      ({ s with state := State.Closed, pending := false, encoderState := none },
        [Act.NotifyClosed reason])
  | State.Closing => ({ s with state := State.Closed }, [])
  | State.Closed => (s, [])

/-- Modelled from the spec: the recognized format strings of the
configuration surface: the built-in "h264" video codec, the built-in
"lossless" encoding, and any image format for which an image plugin is
installed (`imgFmts`). -/
def recognized_format (imgFmts : List String) (fmt : String) : Bool :=
  fmt == "h264" || fmt == "lossless" || imgFmts.contains fmt

/-- Modelled from the spec: `set_video_format`.  A recognized format is
installed (switching format forces an implicit encoder reset) and `0` is
returned; an unrecognized format returns `-1` and leaves the session
entirely unchanged. -/
def set_video_format (imgFmts : List String) (s : Session) (fmt : String) :
    Int × Session :=
  if recognized_format imgFmts fmt then
    (0, { s with format := fmt, encoderState := none })
  else
    (-1, s)

/-- Modelled from the spec: `set_max_bitrate`; returns 0 on success. -/
def set_max_bitrate (s : Session) (r : Nat) : Int × Session :=
  (0, { s with maxBitrate := r })

/-- Modelled from the spec: `set_min_bitrate`; returns 0 on success. -/
def set_min_bitrate (s : Session) (r : Nat) : Int × Session :=
  (0, { s with minBitrate := r })

/-- Modelled from the spec: the deprecated `set_bit_rate`, documented as
equivalent to calling `set_max_bitrate` and `set_min_bitrate` with the same
value; modelled as the atomic update of both bounds. -/
def set_bit_rate (s : Session) (r : Nat) : Int × Session :=
  (0, { s with maxBitrate := r, minBitrate := r })

/-- Modelled from the spec: `set_max_frame_rate`; returns 0 on success. -/
def set_max_frame_rate (s : Session) (r : Nat) : Int × Session :=
  (0, { s with maxFrameRate := r })

/-- Modelled from the spec: the bitrate clamp of the rate controller.  The
adapted bitrate never goes below the minimum nor above the maximum, and the
maximum takes precedence when the maximum is set lower than the minimum. -/
def clamp_bitrate (minB maxB b : Nat) : Nat :=
  min (max b minB) maxB

/-- Modelled from the spec: the currently used bit rate, i.e. the rate
controller's estimate clamped to the configured bounds. -/
def effective_bitrate (s : Session) : Nat :=
  clamp_bitrate s.minBitrate s.maxBitrate s.bitRate

/-- Modelled from the spec: `get_bit_rate`. -/
def get_bit_rate (s : Session) : Nat := effective_bitrate s

/-- Modelled from the spec: `get_min_bitrate`. -/
def get_min_bitrate (s : Session) : Nat := s.minBitrate

/-- Modelled from the spec: `get_max_bitrate`. -/
def get_max_bitrate (s : Session) : Nat := s.maxBitrate

/-- Modelled from the spec: `set_video_source`.  The new source atomically
replaces any previously bound one; `none` detaches. -/
def set_video_source (s : Session) (src : Option Nat) : Session :=
  { s with source := src }

/-- Modelled from the spec: `get_video_source`. -/
def get_video_source (s : Session) : Option Nat := s.source

/-- Modelled from the spec: `reset()` clears the encoder's inter-frame
prediction state without touching the lifecycle state. -/
def reset (s : Session) : Session :=
  { s with encoderState := none }

/-- Modelled from the spec: formats with inter-frame prediction.  Only the
"h264" codec is stateful; "lossless" and image formats are stateless. -/
def stateful_format (fmt : String) : Bool := fmt == "h264"

/-- Modelled from the spec: the encoder.  For a stateful format the output
depends on the prediction state (a keyframe when there is none, a delta
frame otherwise) and the new prediction state records the frame; a stateless
format encodes the frame alone and keeps no state. -/
def encode (fmt : String) (bitrate : Nat) (pred : Option Nat) (frame : Nat) :
    Nat × Option Nat :=
  if stateful_format fmt then
    match pred with
    | none => (frame + 1, some frame)
    | some p => (2 * (p + frame) + 2, some frame)
  else
    (frame, none)

/-- Modelled from the spec: the events driving one session. -/
inductive Ev where
  | frameReady
  | pullComplete (o : Outcome)
  | closeCtx
  | finalizeClose
  | remoteClosed (reason : Int)
  | setVideoFormat (fmt : String)
  | setMaxFrameRate (r : Nat)
  | setMaxBitrate (r : Nat)
  | setMinBitrate (r : Nat)
  | setBitRate (r : Nat)
  | setVideoSource (src : Option Nat)
  | resetCtx
deriving DecidableEq, Repr

/-- Modelled from the spec: the session step function, dispatching one event
to the corresponding operation and collecting the emitted actions. -/
def step (imgFmts : List String) (s : Session) (e : Ev) : Session × List Act :=
  match e with
  | Ev.frameReady => frame_ready s
  | Ev.pullComplete o => pull_complete s o
  | Ev.closeCtx => close s
  | Ev.finalizeClose => finalize_close s
  | Ev.remoteClosed r => remote_closed s r
  | Ev.setVideoFormat f => ((set_video_format imgFmts s f).2, [])
  | Ev.setMaxFrameRate r => ((set_max_frame_rate s r).2, [])
  | Ev.setMaxBitrate r => ((set_max_bitrate s r).2, [])
  | Ev.setMinBitrate r => ((set_min_bitrate s r).2, [])
  | Ev.setBitRate r => ((set_bit_rate s r).2, [])
  | Ev.setVideoSource src => (set_video_source s src, [])
  | Ev.resetCtx => (reset s, [])

/-- Running a list of events from a session, accumulating the actions. -/
def run (imgFmts : List String) (s : Session) : List Ev → Session × List Act
  | [] => (s, [])
  | e :: es =>
      let p := step imgFmts s e
      let q := run imgFmts p.1 es
      (q.1, p.2 ++ q.2)

/-- Whether an action is a pull issued to the FrameSource. -/
def Act.isBeginPull : Act → Bool
  | Act.BeginPull => true
  | _ => false

/-- Number of pulls issued in an action trace. -/
def countBeginPull (l : List Act) : Nat :=
  (l.filter Act.isBeginPull).length

/-- A concrete freshly opened session with a pull in flight, used to
instantiate the theorems below. -/
def sOpen : Session :=
  { state := State.Open, format := "lossless", maxFrameRate := 30,
    minBitrate := 0, maxBitrate := 0, bitRate := 0, source := some 7,
    pullInFlight := true, pending := false, encoderState := none }

/-- A concrete already-Closed session. -/
def sClosed : Session :=
  { sOpen with state := State.Closed, pullInFlight := false }

theorem frame_ready_inflight (s : Session) (hst : s.state = State.Open)
    (hfl : s.pullInFlight = true) :
    frame_ready s = ({ s with pending := true }, []) := by
  simp [frame_ready, hst, hfl]

theorem pending_eta (s : Session) (h : s.pending = true) :
    { s with pending := true } = s := by
  cases s
  simp_all

theorem run_replicate_frameReady (fs : List String) (n : Nat) (s : Session)
    (hst : s.state = State.Open) (hfl : s.pullInFlight = true)
    (hp : s.pending = true) :
    run fs s (List.replicate n Ev.frameReady) = (s, []) := by
  induction n with
  | zero => simp [run]
  | succ m ih =>
      have h1 : step fs s Ev.frameReady = (s, []) := by
        simp [step, frame_ready_inflight s hst hfl, pending_eta s hp]
      simp [List.replicate_succ, run, h1, ih]

theorem run_append (fs : List String) (s : Session) (l1 l2 : List Ev) :
    run fs s (l1 ++ l2) =
      ((run fs (run fs s l1).1 l2).1,
        (run fs s l1).2 ++ (run fs (run fs s l1).1 l2).2) := by
  induction l1 generalizing s with
  | nil => simp [run]
  | cons e es ih => simp [run, ih]

theorem countBeginPull_outcomeActs (o : Outcome) :
    countBeginPull (outcomeActs o) = 0 := by
  cases o <;> simp [outcomeActs, countBeginPull, Act.isBeginPull]

/-- Claim C1: for a session in state Open with one pull in flight, any
number n ≥ 1 of `notifyFrameReady` signals received while the pull is
outstanding coalesce: no pull is issued during the signals, and exactly one
follow-up pull is issued when the in-flight pull completes. -/
theorem frame_ready_coalescing (fs : List String) (s : Session) (k n : Nat)
    (o : Outcome) (hst : s.state = State.Open) (hfl : s.pullInFlight = true)
    (hp : s.pending = false) (hsrc : s.source = some k) (hn : 1 ≤ n) :
    countBeginPull
      (run fs s (List.replicate n Ev.frameReady ++ [Ev.pullComplete o])).2 = 1 := by
  obtain ⟨m, rfl⟩ : ∃ m, n = m + 1 := ⟨n - 1, by omega⟩
  have h1 : step fs s Ev.frameReady = ({ s with pending := true }, []) := by
    simp [step, frame_ready_inflight s hst hfl]
  have h2 : run fs { s with pending := true } (List.replicate m Ev.frameReady)
      = ({ s with pending := true }, []) :=
    run_replicate_frameReady fs m { s with pending := true } hst hfl rfl
  have hrep : run fs s (List.replicate (m + 1) Ev.frameReady)
      = ({ s with pending := true }, []) := by
    simp [List.replicate_succ, run, h1, h2]
  have hpc : pull_complete { s with pending := true } o
      = ({ s with pending := false }, outcomeActs o ++ [Act.BeginPull]) := by
    simp [pull_complete, hst, hfl, hsrc]
  rw [run_append, hrep]
  simp [run, step, hpc]
  cases o <;> simp [countBeginPull, outcomeActs, Act.isBeginPull]

/-- Witness for C1 at a concrete session and five coalesced signals. -/
theorem frame_ready_coalescing_witness :
    sOpen.state = State.Open ∧ sOpen.pullInFlight = true ∧
    sOpen.pending = false ∧ sOpen.source = some 7 ∧ 1 ≤ 5 ∧
    countBeginPull (run [] sOpen
      (List.replicate 5 Ev.frameReady ++ [Ev.pullComplete (Outcome.sent 3)])).2 = 1 :=
  ⟨rfl, rfl, rfl, rfl, by decide,
    frame_ready_coalescing [] sOpen 7 5 (Outcome.sent 3) rfl rfl rfl rfl (by decide)⟩

/-- Claim C2: `close()` is idempotent: from an Open session, two successive
`close()` calls deliver exactly one `NotifyClosed` with reason ClosedByServer,
and `close()` on an already-Closed session is a no-op (state unchanged, no
second closure notification). -/
theorem close_idempotent (fs : List String) (s : Session) :
    (s.state = State.Open →
      (run fs s [Ev.closeCtx, Ev.closeCtx]).2 = [Act.NotifyClosed 0]) ∧
    (s.state = State.Closed → step fs s Ev.closeCtx = (s, [])) := by
  constructor
  · intro h
    simp [run, step, close, h]
  · intro h
    simp [step, close, h]

/-- Witness for C2 at a concrete Open session and a concrete Closed one. -/
theorem close_idempotent_witness :
    (run [] sOpen [Ev.closeCtx, Ev.closeCtx]).2 = [Act.NotifyClosed 0] ∧
    step [] sClosed Ev.closeCtx = (sClosed, []) :=
  ⟨(close_idempotent [] sOpen).1 rfl, (close_idempotent [] sClosed).2 rfl⟩

/-- Claim C3: a configuration call with an unrecognized format string
returns the synchronous error code -1 and leaves the whole session record
unchanged: the lifecycle state, every setting, and the bound FrameSource
are exactly as before. -/
theorem set_video_format_unrecognized (fs : List String) (s : Session)
    (fmt : String) (h : recognized_format fs fmt = false) :
    set_video_format fs s fmt = (-1, s) := by
  simp [set_video_format, h]

/-- Witness for C3 at the unsupported format string "mpeg9". -/
theorem set_video_format_unrecognized_witness :
    recognized_format [] "mpeg9" = false ∧
    set_video_format [] sOpen "mpeg9" = (-1, sOpen) :=
  ⟨by decide, set_video_format_unrecognized [] sOpen "mpeg9" (by decide)⟩

/-- Claim C4: when the configured minimum bitrate exceeds the maximum, the
effective bound is the maximum (max wins), and the current bit rate never
exceeds the configured maximum. -/
theorem max_bitrate_precedence (s : Session) :
    (s.maxBitrate < s.minBitrate → effective_bitrate s = s.maxBitrate) ∧
    effective_bitrate s ≤ s.maxBitrate := by
  unfold effective_bitrate clamp_bitrate
  constructor
  · intro h
    omega
  · omega

/-- A concrete session whose minimum bitrate exceeds its maximum. -/
def sConf : Session :=
  { sOpen with minBitrate := 500, maxBitrate := 200, bitRate := 350 }

/-- Witness for C4 at a concrete violating configuration. -/
theorem max_bitrate_precedence_witness :
    sConf.maxBitrate < sConf.minBitrate ∧
    effective_bitrate sConf = sConf.maxBitrate :=
  ⟨by decide, (max_bitrate_precedence sConf).1 (by decide)⟩

/-- Claim C5: an encoder error (invalid canvas -1 or encoding failure -4)
only triggers the `video_error` callback and leaves the session Open; the
next `notifyFrameReady` with a valid frame runs a normal
pull-encode-send cycle. -/
theorem encoder_error_keeps_open (fs : List String) (s : Session) (k : Nat)
    (c : Int) (p : Nat) (hst : s.state = State.Open)
    (hfl : s.pullInFlight = true) (hp : s.pending = false)
    (hsrc : s.source = some k) (hc : c = -1 ∨ c = -4) :
    ((run fs s [Ev.pullComplete (Outcome.encodeError c), Ev.frameReady,
        Ev.pullComplete (Outcome.sent p)]).1).state = State.Open ∧
    (run fs s [Ev.pullComplete (Outcome.encodeError c), Ev.frameReady,
        Ev.pullComplete (Outcome.sent p)]).2
      = [Act.VideoError c, Act.BeginPull, Act.Send p] := by
  simp [run, step, pull_complete, frame_ready, outcomeActs, hst, hfl, hp, hsrc]

/-- Witness for C5 at a concrete session and the invalid-canvas error -1. -/
theorem encoder_error_keeps_open_witness :
    ((run [] sOpen [Ev.pullComplete (Outcome.encodeError (-1)), Ev.frameReady,
        Ev.pullComplete (Outcome.sent 9)]).1).state = State.Open ∧
    (run [] sOpen [Ev.pullComplete (Outcome.encodeError (-1)), Ev.frameReady,
        Ev.pullComplete (Outcome.sent 9)]).2
      = [Act.VideoError (-1), Act.BeginPull, Act.Send 9] :=
  encoder_error_keeps_open [] sOpen 7 (-1) 9 rfl rfl rfl rfl (Or.inl rfl)

/-- Claim C6: `notifyFrameReady` on a session that is not Open is a silent
no-op: no pull is issued, nothing is emitted and the session is unchanged;
in particular, a `close()` immediately followed by `notifyFrameReady` emits
only the closure notification and no pull. -/
theorem closed_frame_ready_noop (fs : List String) (s : Session) :
    (s.state ≠ State.Open → frame_ready s = (s, [])) ∧
    (s.state = State.Open →
      (run fs s [Ev.closeCtx, Ev.frameReady]).2 = [Act.NotifyClosed 0]) := by
  constructor
  · intro h
    simp [frame_ready, h]
  · intro h
    simp [run, step, close, frame_ready, h]

/-- Witness for C6 at a Closed session and at an Open session followed by
close-then-frame-ready. -/
theorem closed_frame_ready_noop_witness :
    frame_ready sClosed = (sClosed, []) ∧
    (run [] sOpen [Ev.closeCtx, Ev.frameReady]).2 = [Act.NotifyClosed 0] :=
  ⟨(closed_frame_ready_noop [] sClosed).1 (by decide),
    (closed_frame_ready_noop [] sOpen).2 rfl⟩

/-- Rank of a lifecycle state along `Open → Closing → Closed`. -/
def State.rank : State → Nat
  | State.Open => 0
  | State.Closing => 1
  | State.Closed => 2

/-- Claim C7: the lifecycle is one-directional and terminal: every step is
monotone along `Open → Closing → Closed`, Closed is terminal, no step
reaches Open from a non-Open state, and the only direct `Open → Closed`
steps are remote closed-by-client / network-error signals. -/
theorem lifecycle_one_directional (fs : List String) (s : Session) (e : Ev) :
    State.rank s.state ≤ State.rank ((step fs s e).1).state ∧
    (s.state = State.Closed → ((step fs s e).1).state = State.Closed) ∧
    (((step fs s e).1).state = State.Open → s.state = State.Open) ∧
    (s.state = State.Open → ((step fs s e).1).state = State.Closed →
      ∃ r, e = Ev.remoteClosed r) := by
  cases e <;>
    cases hs : s.state <;>
      simp [step, frame_ready, pull_complete, close, finalize_close,
        remote_closed, set_video_format, set_max_frame_rate, set_max_bitrate,
        set_min_bitrate, set_bit_rate, set_video_source, reset,
        State.rank, hs] <;>
      split_ifs <;>
      simp_all [State.rank]

/-- Witness for C7: a remote signal closes an Open session directly, and a
step from a Closed session stays Closed. -/
theorem lifecycle_one_directional_witness :
    (∃ r, Ev.remoteClosed 1 = Ev.remoteClosed r) ∧
    ((step [] sClosed Ev.frameReady).1).state = State.Closed :=
  ⟨(lifecycle_one_directional [] sOpen (Ev.remoteClosed 1)).2.2.2 rfl (by decide),
    (lifecycle_one_directional [] sClosed Ev.frameReady).2.1 rfl⟩

/-- Claim C8: `reset()` clears the encoder prediction state, leaves the
lifecycle state untouched and is idempotent; after a reset the encoder
depends on no earlier state, so for a stateless format encoding a frame
with any prior prediction state equals encoding it with none. -/
theorem reset_idempotent (s : Session) (fmt : String) (b : Nat)
    (pred : Option Nat) (f : Nat) :
    (reset s).state = s.state ∧
    reset (reset s) = reset s ∧
    (reset s).encoderState = none ∧
    (stateful_format fmt = false → encode fmt b pred f = encode fmt b none f) := by
  refine ⟨rfl, rfl, rfl, ?_⟩
  intro h
  simp [encode, h]

/-- Witness for C8 at the stateless "lossless" format. -/
theorem reset_idempotent_witness :
    stateful_format "lossless" = false ∧
    encode "lossless" 0 (some 3) 9 = encode "lossless" 0 none 9 :=
  ⟨by decide, (reset_idempotent sOpen "lossless" 0 (some 3) 9).2.2.2 (by decide)⟩

/-- Claim C9: the deprecated `set_bit_rate r` is observably equivalent to
`set_max_bitrate r` followed by `set_min_bitrate r`: the resulting sessions
are equal, both bounds read back as `r`, and `get_bit_rate` agrees. -/
theorem set_bit_rate_equiv (s : Session) (r : Nat) :
    set_bit_rate s r = (0, (set_min_bitrate (set_max_bitrate s r).2 r).2) ∧
    get_min_bitrate (set_bit_rate s r).2 = r ∧
    get_max_bitrate (set_bit_rate s r).2 = r ∧
    get_bit_rate (set_bit_rate s r).2
      = get_bit_rate (set_min_bitrate (set_max_bitrate s r).2 r).2 :=
  ⟨rfl, rfl, rfl, rfl⟩

/-- Claim C10: source binding round-trip: immediately after
`set_video_source s src` (including `src = none`), `get_video_source`
returns exactly `src`, and a new binding atomically replaces any previous
one. -/
theorem video_source_round_trip (s : Session) (src a : Option Nat) :
    get_video_source (set_video_source s src) = src ∧
    set_video_source (set_video_source s a) src = set_video_source s src :=
  ⟨rfl, rfl⟩

end Bridge
